import Mathlib

set_option maxRecDepth 8000

/-!
Verification development for the `socratic-sofa` repository.

The definitions below are a shallow embedding of the Python modules
`src/socratic_sofa/content_filter.py`, `src/socratic_sofa/schemas.py` and
`src/socratic_sofa/gradio_app.py`.  Python strings are Lean `String`s,
Python exceptions raised by the external moderation call are modelled by
an explicit outcome type, and the streaming generator is modelled as a
function from its environment (the dequeued completions, the background
worker's recorded error, and the pipeline's authoritative per-task
outputs) to the list of snapshots it yields.
-/

/-- ASCII whitespace stripped by Python `str.strip()` (the embedding uses
the ASCII subset; the claims only involve ASCII input). -/
def pyWhitespace (c : Char) : Bool :=
  c = ' ' || c = '\t' || c = '\n' || c = '\r' || c = '\x0b' || c = '\x0c'

/-- Embedding of Python `str.strip()`: drop leading and trailing whitespace. -/
def pyStrip (s : String) : String :=
  String.mk (((s.data.dropWhile pyWhitespace).reverse.dropWhile pyWhitespace).reverse)

/-- Embedding of Python `str.startswith`. -/
def pyStartsWith (s pre : String) : Bool :=
  pre.data.isPrefixOf s.data

/-- Embedding of Python `str.lower` (character-wise lowering). -/
def pyLower (s : String) : String :=
  String.mk (s.data.map Char.toLower)

/-- One fuelled pass of `str.replace`: replace every non-overlapping
occurrence of `old` from left to right.  The fuel is the input length; each
step consumes at least one character when `old` is non-empty, the only way
the repository calls it. -/
def replaceFuel (old new : List Char) : Nat → List Char → List Char
  | 0, l => l
  | _ + 1, [] => []
  | fuel + 1, c :: cs =>
    if old.isPrefixOf (c :: cs) && !old.isEmpty then
      new ++ replaceFuel old new fuel ((c :: cs).drop old.length)
    else c :: replaceFuel old new fuel cs

/-- Embedding of Python `str.replace` for a non-empty pattern. -/
def pyReplace (s old new : String) : String :=
  String.mk (replaceFuel old.data new.data s.data.length s.data)

/-- Membership test for one character list inside another, the embedding of
the Python substring operator `needle in hay`. -/
def subListOf (needle : List Char) : List Char → Bool
  | [] => needle.isEmpty
  | c :: cs => needle.isPrefixOf (c :: cs) || subListOf needle cs

/-- Embedding of Python `word in topic_lower` (substring containment). -/
def strContainsB (hay needle : String) : Bool :=
  subListOf needle.data hay.data

/-- Propositional substring containment, used to state what a produced
message contains. -/
def strContains (hay needle : String) : Prop :=
  List.IsInfix needle.data hay.data

/-- Outcome of the external moderation call made inside
`is_topic_appropriate`: either the text of `response.content[0].text`, or
an exception raised anywhere inside the `try` block. -/
inductive ModOutcome where
  | ok (text : String)
  | exc
deriving DecidableEq

/-- The rejection reason produced by the length check in
`content_filter.is_topic_appropriate`. -/
def tooLongReason : String :=
  "Topic is too long. Please keep it concise (under 500 characters)."

/-- Embedding of `content_filter.is_topic_appropriate`.  The external call
is passed in as a `ModOutcome`; it is consulted only on the branch where
the Python code performs the call. -/
def is_topic_appropriate (topic : String) (mod : ModOutcome) : Bool × String :=
  if topic = "" ∨ pyStrip topic = "" then (true, "")
  else if topic.length > 500 then (false, tooLongReason)
  else
    match mod with
    | .exc => (true, "")
    | .ok text =>
      let result := pyStrip text
      if pyStartsWith result "APPROPRIATE" then (true, "")
      else if pyStartsWith result "INAPPROPRIATE:" then
        (false, "This topic may not be appropriate: "
          ++ pyStrip (pyReplace result "INAPPROPRIATE:" ""))
      else (true, "")

/-- The default suggestion list of `get_alternative_suggestions`. -/
def default_suggestions : List String :=
  ["What is justice?",
   "What is the good life?",
   "Is morality relative or universal?",
   "What is consciousness?",
   "Do we have free will?",
   "Can AI have rights?",
   "What is truth?",
   "Is beauty objective?"]

/-- The keyword test of `get_alternative_suggestions`: does any of the
words occur in the lowered topic? -/
def hasTheme (topic_lower : String) (ws : List String) : Bool :=
  ws.any (fun w => strContainsB topic_lower w)

/-- Embedding of `content_filter.get_alternative_suggestions`
(`topic_lower` is the lowered rejected topic of the Python local). -/
def get_alternative_suggestions (rejected_topic : String) : List String :=
  if rejected_topic = "" ∨ pyStrip rejected_topic = "" then default_suggestions
  else
    if hasTheme (pyLower rejected_topic)
        ["ai", "robot", "technology", "computer", "digital", "internet",
         "social media"] then
      ["Can AI have rights?",
       "Should we fear artificial intelligence?",
       "What is consciousness?",
       "Can machines be creative?",
       "What makes us human in a digital age?",
       "Is privacy a fundamental right?",
       "How should we regulate technology?",
       "What is the nature of intelligence?"]
    else if hasTheme (pyLower rejected_topic)
        ["moral", "ethics", "right", "wrong", "should", "ought",
         "good", "bad", "virtue"] then
      ["Is morality relative or universal?",
       "What is the good life?",
       "Can morality exist without religion?",
       "What is justice?",
       "Are there universal human rights?",
       "Is utilitarianism the best ethical framework?",
       "What role should empathy play in ethics?",
       "Can an action be both right and wrong?"]
    else if hasTheme (pyLower rejected_topic)
        ["government", "politics", "society", "democracy", "freedom",
         "liberty", "law", "rights"] then
      ["What is justice?",
       "What is the ideal form of government?",
       "Are there limits to freedom of speech?",
       "What is the social contract?",
       "Should voting be mandatory?",
       "What role should government play in our lives?",
       "Are universal human rights possible?",
       "Can democracy survive the digital age?"]
    else if hasTheme (pyLower rejected_topic)
        ["mind", "consciousness", "brain", "thought", "awareness",
         "perception", "mental", "cognitive"] then
      ["What is consciousness?",
       "Do we have free will?",
       "Is the mind separate from the brain?",
       "What is the nature of reality?",
       "Can we trust our perceptions?",
       "What is the self?",
       "Are our thoughts truly our own?",
       "What is subjective experience?"]
    else if hasTheme (pyLower rejected_topic)
        ["meaning", "purpose", "life", "death", "existence",
         "existential", "absurd", "suffer"] then
      ["What is the good life?",
       "What makes life meaningful?",
       "Is there inherent meaning in the universe?",
       "How should we face mortality?",
       "Can we create our own purpose?",
       "What is happiness?",
       "Is suffering necessary for meaning?",
       "What is the examined life?"]
    else if hasTheme (pyLower rejected_topic)
        ["truth", "knowledge", "belief", "fact", "science",
         "evidence", "prove", "certain"] then
      ["What is truth?",
       "Can we know anything with certainty?",
       "What is the relationship between science and philosophy?",
       "Is objective truth possible?",
       "What is knowledge?",
       "Can faith and reason coexist?",
       "What are the limits of human knowledge?",
       "How do we distinguish truth from opinion?"]
    else if hasTheme (pyLower rejected_topic)
        ["art", "beauty", "aesthetic", "music", "creative",
         "culture"] then
      ["Is beauty objective?",
       "What is art?",
       "Can machines be creative?",
       "What is the purpose of art?",
       "Is there a universal aesthetic?",
       "What makes something beautiful?",
       "Can art be immoral?",
       "What is the value of aesthetic experience?"]
    else default_suggestions

/-- Embedding of `content_filter.get_rejection_guidelines`. -/
def get_rejection_guidelines : String :=
  "\n**Our Guidelines for Philosophical Discourse**\n\nWe welcome questions that:\n- Explore ethics, morality, and values through reasoned inquiry\n- Question fundamental assumptions about society, knowledge, or existence\n- Examine difficult topics with intellectual rigor and good faith\n- Seek understanding through the Socratic method\n\nWe filter out topics that:\n- Contain explicit sexual or violent content\n- Include hate speech or discriminatory language\n- Promote illegal activities (policy questions about legalization are welcome)\n- Appear designed to provoke rather than explore\n\n**The Difference**: \"Should drugs be legalized?\" explores policy and ethics ✓\nvs. explicit content about drug use ✗\n\nIf your topic was rejected, try rephrasing it as a philosophical question that explores underlying principles, values, or reasoning rather than specific content.\n"

/-- Embedding of `schemas.TopicOutput`. -/
structure TopicOutput where
  topic : String
  context : String
  key_concepts : List String
deriving DecidableEq

/-- Embedding of `schemas.SocraticQuestion`. -/
structure SocraticQuestion where
  question : String
  purpose : String
deriving DecidableEq

/-- Embedding of `schemas.InquiryOutput`. -/
structure InquiryOutput where
  philosophical_angle : String
  opening_statement : String
  questions : List SocraticQuestion
  insight_summary : String
deriving DecidableEq

/-- Embedding of `schemas.CriterionScore` (`score` is an integer 1..5). -/
structure CriterionScore where
  score : Nat
  assessment : String
deriving DecidableEq

/-- Embedding of `schemas.InquiryEvaluation`. -/
structure InquiryEvaluation where
  question_quality : CriterionScore
  elenctic_effectiveness : CriterionScore
  philosophical_insight : CriterionScore
  socratic_fidelity : CriterionScore
deriving DecidableEq

/-- Embedding of `schemas.JudgmentOutput`. -/
structure JudgmentOutput where
  first_inquiry : InquiryEvaluation
  second_inquiry : InquiryEvaluation
  differentiation_score : Nat
  differentiation_assessment : String
  winner : String
  socratic_exemplification : String
  recommendation : String
deriving DecidableEq

/-- Embedding of `schemas.format_topic_output`. -/
def format_topic_output (o : TopicOutput) : String :=
  String.intercalate "\n"
    (["## " ++ o.topic, "", o.context, "", "**Key Concepts:**"]
      ++ o.key_concepts.map (fun c => "- " ++ c))

/-- The per-question lines of `schemas.format_inquiry_output`, numbering
from `i` (the Python `enumerate(output.questions, 1)` loop). -/
def questionLines (i : Nat) : List SocraticQuestion → List String
  | [] => []
  | q :: qs =>
    ["### Question " ++ toString i, "> " ++ q.question, "",
     "*Purpose: " ++ q.purpose ++ "*", ""] ++ questionLines (i + 1) qs

/-- Embedding of `schemas.format_inquiry_output`. -/
def format_inquiry_output (o : InquiryOutput) (title emoji : String) : String :=
  String.intercalate "\n"
    (["## " ++ emoji ++ " " ++ title, "",
      "**Philosophical Angle:** " ++ o.philosophical_angle, "",
      o.opening_statement, "", "---", ""]
      ++ questionLines 1 o.questions
      ++ ["---", "", "**Insight:** " ++ o.insight_summary])

/-- Embedding of `schemas._format_criterion`. -/
def format_criterion (name : String) (c : CriterionScore) : String :=
  let emoji := if c.score ≥ 4 then "✅" else if c.score ≥ 3 then "⚠️" else "❌"
  "- " ++ emoji ++ " **" ++ name ++ "** (" ++ toString c.score ++ "/5): " ++ c.assessment

/-- The weighted total of `schemas.format_judgment_output.calc_total`,
rendered by Python as `(weighted / 5) * 100` with `:.0f`.  For the integer
scores the schema admits, that float computation is exactly
`8*q + 5*e + 4*p + 3*s`, which is how it is embedded here. -/
def calc_total (e : InquiryEvaluation) : Nat :=
  8 * e.question_quality.score + 5 * e.elenctic_effectiveness.score
    + 4 * e.philosophical_insight.score + 3 * e.socratic_fidelity.score

/-- Embedding of `schemas.format_judgment_output`. -/
def format_judgment_output (o : JudgmentOutput) : String :=
  let first_total := calc_total o.first_inquiry
  let second_total := calc_total o.second_inquiry + o.differentiation_score
  String.intercalate "\n"
    ["## Dialectic Evaluation", "",
     "### Scoring Breakdown", "",
     "| Criterion | First Inquiry | Second Inquiry |",
     "|-----------|--------------|----------------|",
     "| **Question Quality** (40%) | " ++ toString o.first_inquiry.question_quality.score
       ++ "/5 | " ++ toString o.second_inquiry.question_quality.score ++ "/5 |",
     "| **Elenctic Effectiveness** (25%) | " ++ toString o.first_inquiry.elenctic_effectiveness.score
       ++ "/5 | " ++ toString o.second_inquiry.elenctic_effectiveness.score ++ "/5 |",
     "| **Philosophical Insight** (20%) | " ++ toString o.first_inquiry.philosophical_insight.score
       ++ "/5 | " ++ toString o.second_inquiry.philosophical_insight.score ++ "/5 |",
     "| **Socratic Fidelity** (15%) | " ++ toString o.first_inquiry.socratic_fidelity.score
       ++ "/5 | " ++ toString o.second_inquiry.socratic_fidelity.score ++ "/5 |",
     "| **Differentiation Quality** (bonus +10%) | N/A | +" ++ toString o.differentiation_score ++ "% |",
     "| **Total Score** | " ++ toString first_total ++ "% | " ++ toString second_total ++ "% |",
     "",
     "### Assessment", "",
     "**Winner**: " ++ o.winner, "",
     "**Differentiation**: " ++ o.differentiation_assessment, "",
     "**Socratic Exemplification**: " ++ o.socratic_exemplification, "",
     "### Detailed Analysis", "",
     "**First Inquiry:**",
     format_criterion "Question Quality" o.first_inquiry.question_quality,
     format_criterion "Elenctic Effectiveness" o.first_inquiry.elenctic_effectiveness,
     format_criterion "Philosophical Insight" o.first_inquiry.philosophical_insight,
     format_criterion "Socratic Fidelity" o.first_inquiry.socratic_fidelity,
     "",
     "**Second Inquiry:**",
     format_criterion "Question Quality" o.second_inquiry.question_quality,
     format_criterion "Elenctic Effectiveness" o.second_inquiry.elenctic_effectiveness,
     format_criterion "Philosophical Insight" o.second_inquiry.philosophical_insight,
     format_criterion "Socratic Fidelity" o.second_inquiry.socratic_fidelity,
     "",
     "### Recommendation", "",
     "*" ++ o.recommendation ++ "*"]

/-- The object held in a CrewAI task output's `pydantic` attribute: one of
the three schema types the `isinstance` checks look for, or some other
object. -/
inductive PydanticVal where
  | topicV (t : TopicOutput)
  | inquiryV (i : InquiryOutput)
  | judgmentV (j : JudgmentOutput)
  | otherV
deriving DecidableEq

/-- Embedding of a CrewAI task output object as `format_task_output` sees
it: `pydantic = none` models both a missing attribute and `None`;
`raw = none` models an object without a `raw` attribute, in which case
`str(task_output)` (`str_repr`) is used. -/
structure TaskOutput where
  pydantic : Option PydanticVal
  raw : Option String
  str_repr : String
deriving DecidableEq

/-- The raw-text fallback of `gradio_app.format_task_output`:
`task_output.raw if hasattr(task_output, "raw") else str(task_output)`. -/
def rawText (t : TaskOutput) : String :=
  match t.raw with
  | some r => r
  | none => t.str_repr

/-- The structured branch of `gradio_app.format_task_output`: the
`task_name`/`isinstance` dispatch chain, `none` when no pair matches and
the function falls through to the raw fallback. -/
def structuredFormat (t : TaskOutput) (task_name : String) : Option String :=
  match t.pydantic with
  | some (.topicV p) =>
    if task_name = "propose_topic" then some (format_topic_output p) else none
  | some (.inquiryV p) =>
    if task_name = "propose" then some (format_inquiry_output p "First Line of Inquiry" "🔵")
    else if task_name = "oppose" then
      some (format_inquiry_output p "Alternative Line of Inquiry" "🟢")
    else none
  | some (.judgmentV p) =>
    if task_name = "judge_task" then some (format_judgment_output p) else none
  | some .otherV => none
  | none => none

/-- Embedding of `gradio_app.format_task_output`.  The Lean embedding is a
total function: the Python `except` branch produces exactly the same
raw-text fallback as the no-structured-match path, so capturing an
exception and falling through are the same value here. -/
def format_task_output (t : TaskOutput) (task_name : String) : String :=
  match structuredFormat t task_name with
  | some s => s
  | none =>
    let raw := rawText t
    if task_name = "propose" then "## 🔵 First Line of Inquiry\n\n" ++ raw
    else if task_name = "oppose" then "## 🟢 Alternative Line of Inquiry\n\n" ++ raw
    else raw

/-- The character list dropped before the first occurrence of `sep`,
embedding Python `s.split(sep, 1)[1]` (everything after the first
occurrence; used only when `sep in s`). -/
def afterFirst (sep : List Char) : List Char → List Char
  | [] => []
  | c :: cs =>
    if sep.isPrefixOf (c :: cs) then (c :: cs).drop sep.length
    else afterFirst sep cs

/-- Embedding of `gradio_app.handle_topic_selection`: the typed textbox
takes priority (stripped), else the dropdown value with its category label
removed, with the empty and the let-AI-choose dropdown mapped to `""`. -/
def handle_topic_selection (dropdown_value textbox_value : String) : String :=
  if textbox_value ≠ "" ∧ pyStrip textbox_value ≠ "" then pyStrip textbox_value
  else if dropdown_value = "" then ""
  else if dropdown_value = "✨ Let AI choose" then ""
  else if strContainsB dropdown_value "] " then
    String.mk (afterFirst "] ".data dropdown_value.data)
  else dropdown_value

/-- The progress value passed to the UI in one yield: either the literal
empty string the rejection and error yields pass, or the HTML rendered by
`create_progress_html(n, start_time)`, represented by the
`current_stage` count `n` it is called with (the rendered HTML string
itself also depends on wall-clock time and is not modelled). -/
inductive ProgressHtml where
  | empty
  | stages (n : Nat)
deriving DecidableEq

/-- The number of stages `create_progress_html` renders with the
`completed` class: stage indices `idx < current_stage` among the four
`PROGRESS_STAGES`, so `min n 4`; the empty progress string renders no
stage at all. -/
def completedStages : ProgressHtml → Nat
  | .empty => 0
  | .stages n => min n 4

/-- One tuple yielded by `run_socratic_dialogue_streaming`:
`(progress_html, topic, proposition, opposition, judgment)`. -/
structure Snapshot where
  progress : ProgressHtml
  topic : String
  proposition : String
  opposition : String
  judgment : String
deriving DecidableEq

/-- The orchestrator's `outputs` dict: the four display fields. -/
structure Outputs where
  topic : String
  proposition : String
  opposition : String
  judgment : String
deriving DecidableEq

/-- Build the yielded tuple from a progress value and the `outputs` dict. -/
def snapOf (p : ProgressHtml) (o : Outputs) : Snapshot :=
  ⟨p, o.topic, o.proposition, o.opposition, o.judgment⟩

/-- The initial loading-state values of the `outputs` dict. -/
def initialOutputs : Outputs :=
  { topic := "⏳ *Preparing philosophical inquiry...*"
    proposition := "⏳ *Waiting for topic selection...*"
    opposition := "⏳ *Waiting for first inquiry...*"
    judgment := "⏳ *Waiting for dialogues to complete...*" }

/-- In-progress marker written to the next field after stage 1 completes. -/
def inProgressFirst : String := "🔄 *First line of inquiry in progress...*"

/-- In-progress marker written to the next field after stage 2 completes. -/
def inProgressAlt : String := "🔄 *Alternative inquiry in progress...*"

/-- In-progress marker written to the next field after stage 3 completes. -/
def inProgressJudge : String := "🔄 *Evaluating dialogues...*"

/-- The loop variables of the polling loop: the `outputs` dict,
`current_stage`, and `task_index`. -/
structure LoopState where
  outputs : Outputs
  stage : Nat
  idx : Nat
deriving DecidableEq

/-- The body of the polling loop for one successfully dequeued completion:
when `task_index < len(task_names)`, dispatch on
`task_names[task_index]` (position, never the payload), write the
formatted text into that stage's field, write the next stage's in-progress
marker, advance `current_stage` and `task_index`, and yield one updated
snapshot; items dequeued beyond the fourth change nothing and yield
nothing. -/
def stepLoop (st : LoopState) (out : TaskOutput) : LoopState × List Snapshot :=
  if st.idx < 4 then
    let next : Outputs × Nat :=
      match st.idx with
      | 0 => ({ st.outputs with topic := format_task_output out "propose_topic",
                                proposition := inProgressFirst }, 1)
      | 1 => ({ st.outputs with proposition := format_task_output out "propose",
                                opposition := inProgressAlt }, 2)
      | 2 => ({ st.outputs with opposition := format_task_output out "oppose",
                                judgment := inProgressJudge }, 3)
      | _ => ({ st.outputs with judgment := format_task_output out "judge_task" }, 4)
    ({ outputs := next.1, stage := next.2, idx := st.idx + 1 },
      [snapOf (.stages next.2) next.1])
  else (st, [])

/-- The polling loop over the sequence of successfully dequeued
completions (dequeue timeouts change no state and yield nothing, so they
do not appear). -/
def runLoop (st : LoopState) : List TaskOutput → LoopState × List Snapshot
  | [] => (st, [])
  | o :: os =>
    let r1 := stepLoop st o
    let r2 := runLoop r1.1 os
    (r2.1, r1.2 ++ r2.2)

/-- The environment one approved run observes: the completions dequeued
from `task_queue` in order, the exception recorded by `run_crew` in
`result_container["error"]`, and the authoritative `crew.tasks` per-task
`output` values read back for reconciliation. -/
structure PipelineEnv where
  delivered : List TaskOutput
  error : Option String
  tasks : List (Option TaskOutput)
deriving DecidableEq

/-- The final reconciliation block: when `len(tasks) >= 4`, each display
field whose task has a (truthy) stored output is overwritten with the
freshly formatted authoritative output. -/
def reconcile (o : Outputs) (tasks : List (Option TaskOutput)) : Outputs :=
  if tasks.length ≥ 4 then
    { topic := match tasks.getD 0 none with
        | some t => format_task_output t "propose_topic"
        | none => o.topic
      proposition := match tasks.getD 1 none with
        | some t => format_task_output t "propose"
        | none => o.proposition
      opposition := match tasks.getD 2 none with
        | some t => format_task_output t "oppose"
        | none => o.opposition
      judgment := match tasks.getD 3 none with
        | some t => format_task_output t "judge_task"
        | none => o.judgment }
  else o

/-- The terminal error message of the outer `except` branch. -/
def errorMsg (e : String) : String :=
  "❌ Error running dialogue: " ++ e

/-- The terminal error snapshot: empty progress, all four fields the same
error message. -/
def errorSnap (e : String) : Snapshot :=
  ⟨.empty, errorMsg e, errorMsg e, errorMsg e, errorMsg e⟩

/-- The suggestion block of the rejection message: one `- {s}` line per
suggestion among the first five (`suggestions[:5]`), accumulated exactly
like the Python `+=` loop. -/
def suggestionLines (suggestions : List String) : String :=
  (suggestions.take 5).foldl (fun acc s => acc ++ "- " ++ s ++ "\n") ""

/-- The fixed text of the rejection message before the reason. -/
def rejHeader : String :=
  "## 💭 Let\x27s Explore Something Different\n\nWe couldn\x27t proceed with this topic. "

/-- The fixed text of the rejection message between the reason and the
suggestion lines. -/
def rejMid : String :=
  "\n\n### 🌟 Try These Related Topics Instead\n\n"

/-- The fixed text of the rejection message after the suggestion lines. -/
def rejTail : String :=
  "\n---\n\n<details>\n<summary><strong>📖 Why was this rejected? (Click to expand)</strong></summary>\n\n"
    ++ get_rejection_guidelines ++ "\n</details>"

/-- The full `error_msg` assembled on the rejection path. -/
def rejectionMessage (reason topic : String) : String :=
  rejHeader ++ reason ++ rejMid
    ++ suggestionLines (get_alternative_suggestions topic) ++ rejTail

/-- The single snapshot yielded on the rejection path: empty progress
HTML and the rejection message in all four fields. -/
def rejectionSnap (reason topic : String) : Snapshot :=
  ⟨.empty, rejectionMessage reason topic, rejectionMessage reason topic,
    rejectionMessage reason topic, rejectionMessage reason topic⟩

/-- The approved path of `run_socratic_dialogue_streaming`: initial
loading yield, the polling-loop yields, then either the terminal error
snapshot (when the worker recorded an exception, re-raised by the
orchestrator and converted by the outer `except`) or the reconciled final
snapshot with `create_progress_html(4, ...)`. -/
def approvedRun (env : PipelineEnv) : List Snapshot :=
  let res := runLoop ⟨initialOutputs, 0, 0⟩ env.delivered
  (snapOf (.stages 0) initialOutputs :: res.2) ++
    (match env.error with
     | some e => [errorSnap e]
     | none => [snapOf (.stages 4) (reconcile res.1.outputs env.tasks)])

/-- Embedding of `gradio_app.run_socratic_dialogue_streaming` as the list
of tuples the generator yields, given the moderation outcome and the
pipeline environment. -/
def run_socratic_dialogue_streaming (dropdown_topic custom_topic : String)
    (mod : ModOutcome) (env : PipelineEnv) : List Snapshot :=
  let final_topic := handle_topic_selection dropdown_topic custom_topic
  match is_topic_appropriate final_topic mod with
  | (false, rejection_reason) => [rejectionSnap rejection_reason final_topic]
  | (true, _) => approvedRun env

/-- The sequence of completed-stage counts carried by the yields that
render a progress indicator (the empty-progress rejection and error
yields carry none). -/
def stageTrace (ys : List Snapshot) : List Nat :=
  ys.filterMap (fun s =>
    match s.progress with
    | .stages n => some n
    | .empty => none)

/-- Concatenating strings concatenates their character data. -/
lemma str_data_append (s t : String) : (s ++ t).data = s.data ++ t.data := rfl

/-- A list of `TaskOutput`s of length 4 is a four-element list. -/
lemma exists_four_of_length (l : List TaskOutput) (h : l.length = 4) :
    ∃ a b c d, l = [a, b, c, d] := by
  obtain ⟨a, tl, rfl⟩ : ∃ a tl, l = a :: tl := by
    cases l with
    | nil => simp at h
    | cons a tl => exact ⟨a, tl, rfl⟩
  obtain ⟨b, c, d, rfl⟩ := List.length_eq_three.mp (by simpa using h)
  exact ⟨a, b, c, d, rfl⟩

/-- The terminal error message can never coincide with a rejection
message: the former begins with the error marker, the latter with the
markdown rejection header. -/
lemma errorMsg_ne_rejectionMessage (e reason topic : String) :
    errorMsg e ≠ rejectionMessage reason topic := by
  intro hEq
  have h1 : (errorMsg e).data.head? = some '❌' := rfl
  have h2 : (rejectionMessage reason topic).data.head? = some '#' := rfl
  rw [hEq, h2] at h1
  exact absurd h1 (by decide)

/-- A shared concrete completion payload used by witnesses. -/
def outA : TaskOutput := ⟨none, some "alpha raw", "alpha raw"⟩

/-- A shared concrete completion payload used by witnesses. -/
def outB : TaskOutput := ⟨none, some "beta raw", "beta raw"⟩

/-- A shared concrete completion payload used by witnesses. -/
def outC : TaskOutput := ⟨none, some "gamma raw", "gamma raw"⟩

/-- A shared concrete completion payload used by witnesses. -/
def outD : TaskOutput := ⟨none, some "delta raw", "delta raw"⟩

/-- Claim C1: for every topic that fails moderation,
`run_socratic_dialogue_streaming` yields exactly one snapshot and then
terminates; its four text fields are all the identical rejection message,
which contains the rejection reason and the block of at most 5
alternative-topic suggestions; the snapshot's progress is the empty
progress HTML, which reports zero stages complete.  The yielded list does
not depend on the pipeline environment `env`, which is the embedding of
the fact that no background worker is started. -/
theorem rejected_topic_single_snapshot (d c : String) (mod : ModOutcome)
    (env : PipelineEnv) (r : String)
    (h : is_topic_appropriate (handle_topic_selection d c) mod = (false, r)) :
    run_socratic_dialogue_streaming d c mod env
        = [⟨.empty, rejectionMessage r (handle_topic_selection d c),
            rejectionMessage r (handle_topic_selection d c),
            rejectionMessage r (handle_topic_selection d c),
            rejectionMessage r (handle_topic_selection d c)⟩]
      ∧ completedStages ProgressHtml.empty = 0
      ∧ strContains (rejectionMessage r (handle_topic_selection d c)) r
      ∧ strContains (rejectionMessage r (handle_topic_selection d c))
          (suggestionLines (get_alternative_suggestions (handle_topic_selection d c)))
      ∧ ((get_alternative_suggestions (handle_topic_selection d c)).take 5).length ≤ 5 := by
  refine ⟨?_, rfl, ?_, ?_, ?_⟩
  · simp only [run_socratic_dialogue_streaming]
    rw [h]
    rfl
  · exact ⟨rejHeader.data,
      (rejMid ++ suggestionLines (get_alternative_suggestions (handle_topic_selection d c))
        ++ rejTail).data,
      by simp [rejectionMessage, str_data_append, List.append_assoc]⟩
  · exact ⟨(rejHeader ++ r ++ rejMid).data, rejTail.data,
      by simp [rejectionMessage, str_data_append, List.append_assoc]⟩
  · simp [List.length_take]

/-- Witness for C1 at a concretely rejected topic. -/
theorem rejected_topic_single_snapshot_witness :
    is_topic_appropriate (handle_topic_selection "" "bad topic")
        (ModOutcome.ok "INAPPROPRIATE: trolling")
        = (false, "This topic may not be appropriate: trolling")
      ∧ run_socratic_dialogue_streaming "" "bad topic"
          (ModOutcome.ok "INAPPROPRIATE: trolling") ⟨[], none, []⟩
        = [⟨.empty, rejectionMessage "This topic may not be appropriate: trolling"
              (handle_topic_selection "" "bad topic"),
            rejectionMessage "This topic may not be appropriate: trolling"
              (handle_topic_selection "" "bad topic"),
            rejectionMessage "This topic may not be appropriate: trolling"
              (handle_topic_selection "" "bad topic"),
            rejectionMessage "This topic may not be appropriate: trolling"
              (handle_topic_selection "" "bad topic")⟩] :=
  ⟨by decide,
   (rejected_topic_single_snapshot "" "bad topic" (ModOutcome.ok "INAPPROPRIATE: trolling")
      ⟨[], none, []⟩ "This topic may not be appropriate: trolling" (by decide)).1⟩

/-- Claim C2: within one approved run, the completed-stage counts carried
by the yielded snapshots (the `current_stage` values rendered by
`create_progress_html`) start at 0 in the initial snapshot and run
0, 1, 2, 3, 4, increasing by exactly 1 per stage completion, never
skipping, never decreasing, never exceeding 4; the final reconciled
snapshot repeats the count 4. -/
theorem approved_run_stage_counts (d c : String) (mod : ModOutcome)
    (env : PipelineEnv) (r : String)
    (h : is_topic_appropriate (handle_topic_selection d c) mod = (true, r))
    (he : env.error = none) (hd : env.delivered.length = 4) :
    (run_socratic_dialogue_streaming d c mod env).head?
        = some (snapOf (.stages 0) initialOutputs)
      ∧ stageTrace (run_socratic_dialogue_streaming d c mod env) = [0, 1, 2, 3, 4, 4]
      ∧ List.Chain' (fun a b => a ≤ b)
          (stageTrace (run_socratic_dialogue_streaming d c mod env))
      ∧ ∀ n ∈ stageTrace (run_socratic_dialogue_streaming d c mod env), n ≤ 4 := by
  obtain ⟨del, err, tasks⟩ := env
  obtain rfl : err = none := he
  obtain ⟨a, b, a2, b2, rfl⟩ := exists_four_of_length del hd
  have hrun : run_socratic_dialogue_streaming d c mod ⟨[a, b, a2, b2], none, tasks⟩
      = approvedRun ⟨[a, b, a2, b2], none, tasks⟩ := by
    simp only [run_socratic_dialogue_streaming]
    rw [h]
  have htr : stageTrace (approvedRun ⟨[a, b, a2, b2], none, tasks⟩) = [0, 1, 2, 3, 4, 4] := rfl
  refine ⟨?_, ?_, ?_, ?_⟩ <;> rw [hrun]
  · rfl
  · exact htr
  · rw [htr]; norm_num [List.chain'_cons]
  · rw [htr]; decide

/-- Witness for C2 at a concrete approved run with four dequeued
completions. -/
theorem approved_run_stage_counts_witness :
    is_topic_appropriate (handle_topic_selection "" "What is courage?")
        (ModOutcome.ok "APPROPRIATE") = (true, "")
      ∧ stageTrace (run_socratic_dialogue_streaming "" "What is courage?"
          (ModOutcome.ok "APPROPRIATE") ⟨[outA, outB, outC, outD], none, []⟩)
        = [0, 1, 2, 3, 4, 4] :=
  ⟨by decide,
   (approved_run_stage_counts "" "What is courage?" (ModOutcome.ok "APPROPRIATE")
      ⟨[outA, outB, outC, outD], none, []⟩ "" (by decide) rfl (by decide)).2.1⟩

/-- Claim C3: whenever the pipeline succeeds (no worker error, and the
four authoritative task outputs are present), the final yielded snapshot
carries `create_progress_html(4)` — four stages complete — and its four
text fields are the formatted authoritative per-stage outputs, for every
queue behaviour `delivered`, including fewer than 4 delivered callbacks:
reconciliation backfills from `crew.tasks`. -/
theorem success_final_snapshot_reconciled (d c : String) (mod : ModOutcome)
    (env : PipelineEnv) (r : String) (t0 t1 t2 t3 : TaskOutput)
    (h : is_topic_appropriate (handle_topic_selection d c) mod = (true, r))
    (he : env.error = none)
    (ht : env.tasks = [some t0, some t1, some t2, some t3]) :
    (run_socratic_dialogue_streaming d c mod env).getLast?
        = some (snapOf (.stages 4)
            ⟨format_task_output t0 "propose_topic", format_task_output t1 "propose",
             format_task_output t2 "oppose", format_task_output t3 "judge_task"⟩)
      ∧ completedStages (ProgressHtml.stages 4) = 4 := by
  obtain ⟨del, err, tasks⟩ := env
  obtain rfl : err = none := he
  obtain rfl : tasks = [some t0, some t1, some t2, some t3] := ht
  refine ⟨?_, rfl⟩
  have hrun : run_socratic_dialogue_streaming d c mod
        ⟨del, none, [some t0, some t1, some t2, some t3]⟩
      = (snapOf (.stages 0) initialOutputs
          :: (runLoop ⟨initialOutputs, 0, 0⟩ del).2)
        ++ [snapOf (.stages 4)
            ⟨format_task_output t0 "propose_topic", format_task_output t1 "propose",
             format_task_output t2 "oppose", format_task_output t3 "judge_task"⟩] := by
    simp only [run_socratic_dialogue_streaming]
    rw [h]
    rfl
  rw [hrun, List.getLast?_concat]

/-- Witness for C3 with an empty queue delivery, showing the reconciled
final snapshot is still fully formatted. -/
theorem success_final_snapshot_reconciled_witness :
    is_topic_appropriate (handle_topic_selection "" "What is courage?")
        (ModOutcome.ok "APPROPRIATE") = (true, "")
      ∧ (run_socratic_dialogue_streaming "" "What is courage?"
            (ModOutcome.ok "APPROPRIATE")
            ⟨[], none, [some outA, some outB, some outC, some outD]⟩).getLast?
        = some (snapOf (.stages 4)
            ⟨format_task_output outA "propose_topic", format_task_output outB "propose",
             format_task_output outC "oppose", format_task_output outD "judge_task"⟩) :=
  ⟨by decide,
   (success_final_snapshot_reconciled "" "What is courage?" (ModOutcome.ok "APPROPRIATE")
      ⟨[], none, [some outA, some outB, some outC, some outD]⟩ "" outA outB outC outD
      (by decide) rfl rfl).1⟩

/-- Claim C4: when the background worker records an exception, the
orchestrator converts it to a terminal snapshot instead of re-raising to
the caller: the run still returns a snapshot list whose last element has
all four text fields equal to the one error message, and that message can
never equal any rejection message (the two formats are distinct). -/
theorem pipeline_error_terminal_snapshot (d c : String) (mod : ModOutcome)
    (env : PipelineEnv) (r e : String)
    (h : is_topic_appropriate (handle_topic_selection d c) mod = (true, r))
    (he : env.error = some e) :
    (run_socratic_dialogue_streaming d c mod env).getLast?
        = some ⟨.empty, errorMsg e, errorMsg e, errorMsg e, errorMsg e⟩
      ∧ ∀ reason topic, errorMsg e ≠ rejectionMessage reason topic := by
  obtain ⟨del, err, tasks⟩ := env
  obtain rfl : err = some e := he
  refine ⟨?_, fun reason topic => errorMsg_ne_rejectionMessage e reason topic⟩
  have hrun : run_socratic_dialogue_streaming d c mod ⟨del, some e, tasks⟩
      = (snapOf (.stages 0) initialOutputs
          :: (runLoop ⟨initialOutputs, 0, 0⟩ del).2)
        ++ [⟨.empty, errorMsg e, errorMsg e, errorMsg e, errorMsg e⟩] := by
    simp only [run_socratic_dialogue_streaming]
    rw [h]
    rfl
  rw [hrun, List.getLast?_concat]

/-- Witness for C4 at a concrete failing run. -/
theorem pipeline_error_terminal_snapshot_witness :
    is_topic_appropriate (handle_topic_selection "" "What is courage?")
        (ModOutcome.ok "APPROPRIATE") = (true, "")
      ∧ (run_socratic_dialogue_streaming "" "What is courage?"
            (ModOutcome.ok "APPROPRIATE") ⟨[outA], some "boom", []⟩).getLast?
        = some ⟨.empty, errorMsg "boom", errorMsg "boom", errorMsg "boom", errorMsg "boom"⟩ :=
  ⟨by decide,
   (pipeline_error_terminal_snapshot "" "What is courage?" (ModOutcome.ok "APPROPRIATE")
      ⟨[outA], some "boom", []⟩ "" "boom" (by decide) rfl).1⟩

/-- Claim C5: the i-th dequeued completion (i = 0..3) is dispatched by
position (`task_names[task_index]`), for every payload `out` alike: the
i-th stage's field receives the formatted output, the next stage's field
(when one exists) receives its in-progress marker, every other field is
left unchanged (the record updates below change only the named fields),
and the yielded snapshot carries stage count i + 1 and the updated
outputs. -/
theorem dequeue_positional_frame (st : LoopState) (out : TaskOutput) (h : st.idx < 4) :
    (stepLoop st out).1.idx = st.idx + 1
      ∧ (stepLoop st out).1.stage = st.idx + 1
      ∧ (stepLoop st out).2
          = [snapOf (.stages (st.idx + 1)) (stepLoop st out).1.outputs]
      ∧ (st.idx = 0 → (stepLoop st out).1.outputs
          = { st.outputs with topic := format_task_output out "propose_topic",
                              proposition := inProgressFirst })
      ∧ (st.idx = 1 → (stepLoop st out).1.outputs
          = { st.outputs with proposition := format_task_output out "propose",
                              opposition := inProgressAlt })
      ∧ (st.idx = 2 → (stepLoop st out).1.outputs
          = { st.outputs with opposition := format_task_output out "oppose",
                              judgment := inProgressJudge })
      ∧ (st.idx = 3 → (stepLoop st out).1.outputs
          = { st.outputs with judgment := format_task_output out "judge_task" }) := by
  obtain ⟨o, stg, i⟩ := st
  simp only [LoopState.idx] at h ⊢
  interval_cases i <;> simp [stepLoop, snapOf]

/-- Witness for C5 at the first dequeued completion. -/
theorem dequeue_positional_frame_witness :
    (0 : Nat) < 4
      ∧ (stepLoop ⟨initialOutputs, 0, 0⟩ outA).1.idx = 0 + 1 :=
  ⟨by decide, (dequeue_positional_frame ⟨initialOutputs, 0, 0⟩ outA (by decide)).1⟩

/-- Counterexample to C6 as stated: a verdict text that, taken as
returned, starts with neither "APPROPRIATE" nor "INAPPROPRIATE:" (it
starts with a space), yet the gate does not fail open — it rejects,
because the code strips the verdict before the prefix tests. -/
theorem moderation_raw_verdict_cex :
    pyStartsWith " INAPPROPRIATE: hate speech" "APPROPRIATE" = false
      ∧ pyStartsWith " INAPPROPRIATE: hate speech" "INAPPROPRIATE:" = false
      ∧ is_topic_appropriate "war" (ModOutcome.ok " INAPPROPRIATE: hate speech")
          ≠ (true, "") := by decide

/-- Claim C6 (amended): if the external moderation call raises, or
returns a verdict that — after stripping, as the code does — starts with
neither "APPROPRIATE" nor "INAPPROPRIATE:", the gate returns
`(True, "")`: it fails open and the topic is treated as approved. -/
theorem moderation_fails_open (topic text : String) (mod : ModOutcome)
    (h1 : pyStrip topic ≠ "") (h2 : ¬ topic.length > 500)
    (h3 : mod = ModOutcome.exc
      ∨ (mod = ModOutcome.ok text
          ∧ pyStartsWith (pyStrip text) "APPROPRIATE" = false
          ∧ pyStartsWith (pyStrip text) "INAPPROPRIATE:" = false)) :
    is_topic_appropriate topic mod = (true, "") := by
  have hblank : ¬ (topic = "" ∨ pyStrip topic = "") := by
    rintro (rfl | hs)
    · exact h1 rfl
    · exact h1 hs
  unfold is_topic_appropriate
  rw [if_neg hblank, if_neg h2]
  rcases h3 with rfl | ⟨rfl, hA, hI⟩
  · rfl
  · simp [hA, hI]

/-- Witness for the amended C6 at a concrete ambiguous verdict. -/
theorem moderation_fails_open_witness :
    pyStrip "war" ≠ ""
      ∧ ¬ ("war".length > 500)
      ∧ pyStartsWith (pyStrip "hmm unclear") "APPROPRIATE" = false
      ∧ pyStartsWith (pyStrip "hmm unclear") "INAPPROPRIATE:" = false
      ∧ is_topic_appropriate "war" (ModOutcome.ok "hmm unclear") = (true, "") :=
  ⟨by decide, by decide, by decide, by decide,
   moderation_fails_open "war" "hmm unclear" (ModOutcome.ok "hmm unclear")
     (by decide) (by decide) (Or.inr ⟨rfl, by decide, by decide⟩)⟩

/-- A 501-space topic, longer than 500 characters but whitespace-only. -/
def whitespaceTopic : String := String.mk (List.replicate 501 ' ')

/-- Counterexample to C7 as stated: a topic longer than 500 characters
that the gate nevertheless approves, because the whitespace-only check
runs before the length check. -/
theorem long_whitespace_topic_cex :
    whitespaceTopic.length > 500
      ∧ is_topic_appropriate whitespaceTopic ModOutcome.exc = (true, "") := by decide

/-- A 501-character non-blank topic. -/
def longTopic : String := String.mk (List.replicate 501 'x')

/-- Claim C7 (amended): for every topic longer than 500 characters that
is not empty/whitespace-only, the gate rejects with the fixed "too long"
reason, which contains "500"; the result is the same for every outcome of
the external call, the embedding of "no external moderation call is
made". -/
theorem long_topic_rejected (topic : String) (mod : ModOutcome)
    (h1 : pyStrip topic ≠ "") (h2 : topic.length > 500) :
    is_topic_appropriate topic mod = (false, tooLongReason)
      ∧ strContains tooLongReason "500" := by
  have hblank : ¬ (topic = "" ∨ pyStrip topic = "") := by
    rintro (rfl | hs)
    · exact h1 rfl
    · exact h1 hs
  refine ⟨?_, ?_⟩
  · unfold is_topic_appropriate
    rw [if_neg hblank, if_pos h2]
  · show List.IsInfix "500".data tooLongReason.data
    exact ⟨"Topic is too long. Please keep it concise (under ".data,
      " characters).".data, by decide⟩

/-- Witness for the amended C7 at a 501-character topic. -/
theorem long_topic_rejected_witness :
    pyStrip longTopic ≠ ""
      ∧ longTopic.length > 500
      ∧ is_topic_appropriate longTopic ModOutcome.exc = (false, tooLongReason) :=
  ⟨by decide, by decide,
   (long_topic_rejected longTopic ModOutcome.exc (by decide) (by decide)).1⟩

/-- Claim C8: every empty or whitespace-only topic is approved with an
empty reason, identically for every outcome of the external call — the
short-circuit return happens before any moderation call. -/
theorem blank_topic_approved_without_call (topic : String) (mod : ModOutcome)
    (h : topic = "" ∨ pyStrip topic = "") :
    is_topic_appropriate topic mod = (true, "") := by
  unfold is_topic_appropriate
  rw [if_pos h]

/-- Witness for C8 at a whitespace-only topic. -/
theorem blank_topic_approved_without_call_witness :
    ("   " = "" ∨ pyStrip "   " = "")
      ∧ is_topic_appropriate "   " ModOutcome.exc = (true, "") :=
  ⟨by decide, blank_topic_approved_without_call "   " ModOutcome.exc (by decide)⟩

/-- Claim C9: `format_task_output` is total (the Lean embedding returns a
string for every task output and task name; the Python `except` branch
produces the same fallback), and whenever the expected structured shape
is absent or does not match the task name, it returns the raw text, with
the fixed first-inquiry header for "propose", the fixed
alternative-inquiry header for "oppose", and no header for any other task
name, in particular "propose_topic" and "judge_task". -/
theorem format_task_output_fallback (t : TaskOutput) (task_name : String)
    (h : structuredFormat t task_name = none) :
    format_task_output t task_name
      = (if task_name = "propose" then "## 🔵 First Line of Inquiry\n\n" ++ rawText t
         else if task_name = "oppose" then "## 🟢 Alternative Line of Inquiry\n\n" ++ rawText t
         else rawText t) := by
  unfold format_task_output
  rw [h]

/-- Witness for C9 at a structure-less output and the "propose" task. -/
theorem format_task_output_fallback_witness :
    structuredFormat outA "propose" = none
      ∧ format_task_output outA "propose" = "## 🔵 First Line of Inquiry\n\n" ++ rawText outA :=
  ⟨rfl, by
    have hfb := format_task_output_fallback outA "propose" rfl
    rw [if_pos rfl] at hfb
    exact hfb⟩

/-- Claim C10: for every input string, `get_alternative_suggestions`
returns exactly 8 suggestions — the default list and every thematic list
have length 8 — so the orchestrator's `suggestions[:5]` always yields
exactly 5. -/
theorem suggestions_always_eight (s : String) :
    (get_alternative_suggestions s).length = 8
      ∧ ((get_alternative_suggestions s).take 5).length = 5 := by
  unfold get_alternative_suggestions
  repeat' split
  all_goals decide
